import Mathlib

/-!
Verification development for the daily journal bot (`journal_bot.py`).

The program is embedded shallowly: filesystem paths are modelled relative to
the repository root `REPO_PATH`, the filesystem and git repository are an
explicit `World` state threaded through the functions, interactive standard
input is a list of strings, and the non-deterministic outcomes of the external
git tool (exceptions raised by GitPython calls, the output of
`git diff --staged`) are inputs in a `Faults` record.  Python exception flow is
modelled by the `PyRes` result type: `exn msg w` is an exception carrying its
message with the mutations performed so far.
-/

namespace JournalBot

/-- Embedding of Python `str.lower()` on one ASCII character
(`'A'..'Z'` has codepoints 65..90; lowering adds 32). -/
def pyLowerChar (c : Char) : Char :=
  if 65 ≤ c.toNat ∧ c.toNat ≤ 90 then Char.ofNat (c.toNat + 32) else c

/-- Embedding of Python `str.lower()`. -/
def pyLower (s : String) : String :=
  ⟨s.data.map pyLowerChar⟩

/-- Whitespace test used by Python `str.strip()` (space, tab, newline, CR). -/
def pySpaceChar (c : Char) : Bool :=
  c == ' ' || c == '\t' || c == '\n' || c == '\r'

/-- Embedding of Python `str.strip()`: drop whitespace from both ends. -/
def pyStrip (s : String) : String :=
  ⟨((s.data.dropWhile pySpaceChar).reverse.dropWhile pySpaceChar).reverse⟩

/-- Decimal digit test (codepoints 48..57), as in Python `str.isdigit()`
restricted to ASCII. -/
def pyIsDigitChar (c : Char) : Bool :=
  decide (48 ≤ c.toNat) && decide (c.toNat ≤ 57)

/-- Embedding of Python `str.isdigit()`: non-empty and all digits. -/
def pyIsDigit (s : String) : Bool :=
  !s.data.isEmpty && s.data.all pyIsDigitChar

/-- Embedding of Python `int(s)` on a digit string. -/
def pyInt (s : String) : Nat :=
  s.data.foldl (fun a c => a * 10 + (c.toNat - 48)) 0

/-- Embedding of Python string truthiness (`elif user_input:`). -/
def pyTruthy (s : String) : Bool :=
  !s.data.isEmpty

/-- A calendar date as produced by `datetime.datetime.now()`. -/
structure Date where
  year : Nat
  month : Nat
  day : Nat
deriving Repr, DecidableEq

/-- Month names as rendered by `strftime('%B')`. -/
def monthNameB : Nat → String
  | 1 => "January"
  | 2 => "February"
  | 3 => "March"
  | 4 => "April"
  | 5 => "May"
  | 6 => "June"
  | 7 => "July"
  | 8 => "August"
  | 9 => "September"
  | 10 => "October"
  | 11 => "November"
  | 12 => "December"
  | _ => ""

/-- Zero-pad the decimal rendering of `n` to `width` characters. -/
def zpad (width : Nat) (n : Nat) : String :=
  ⟨List.replicate (width - (toString n).length) '0' ++ (toString n).data⟩

/-- `strftime('%Y')`: the four-digit year. -/
def yearStr (d : Date) : String :=
  zpad 4 d.year

/-- `strftime('%d')`: the zero-padded day of month. -/
def dayStr (d : Date) : String :=
  zpad 2 d.day

/-- `strftime('%m')`: the zero-padded month number. -/
def monthNumStr (d : Date) : String :=
  zpad 2 d.month

/-- `strftime('%Y-%m-%d')`: the ISO date string (`date_str` in the source). -/
def dateStr (d : Date) : String :=
  yearStr d ++ "-" ++ monthNumStr d ++ "-" ++ dayStr d

/-- `today.strftime('%B').lower()` (`month_name` in the source). -/
def monthNameLower (d : Date) : String :=
  pyLower (monthNameB d.month)

/-- `month_year = f"{month_name}-{year_str}"`. -/
def monthYearStr (d : Date) : String :=
  monthNameLower d ++ "-" ++ yearStr d

/-- The `journals/<month_year>` directory (repository-root relative). -/
def monthDirPath (d : Date) : String :=
  "journals" ++ "/" ++ monthYearStr d

/-- The `journals/<month_year>/<day_number>` directory. -/
def dayDirPath (d : Date) : String :=
  monthDirPath d ++ "/" ++ dayStr d

/-- The canonical entry file path `journals/<month_year>/<day>/<date_str>.md`. -/
def entryFilePath (d : Date) : String :=
  dayDirPath d ++ "/" ++ dateStr d ++ ".md"

/-- The fixed prompt list `JOURNAL_PROMPTS`. -/
def JOURNAL_PROMPTS : List String :=
  [ "What went well today?",
    "What could have gone better?",
    "What am I grateful for today?",
    "What did I learn today?",
    "What\x27s one thing I want to focus on tomorrow?",
    "What was the best part of my day?",
    "What challenged me today?",
    "How did I take care of myself today?",
    "What\x27s something I accomplished today?",
    "What\x27s something I\x27m looking forward to?" ]

/-- The interactive selection loop (`while count <= 3: ...`).  `inputs` is the
sequence of lines read from standard input; `count` starts at 1.  A line is
stripped; `done` (case-insensitively) ends the loop; a digit string in range
1..10 selects the corresponding prompt; any other non-empty line is kept as
free text; an empty line is skipped without advancing `count`. -/
def selectPromptsAux : List String → Nat → List String
  | [], _ => []
  | raw :: rest, count =>
    if 3 < count then []
    else
      let u := pyStrip raw
      if pyLower u = "done" then []
      else if pyIsDigit u && decide (1 ≤ pyInt u) && decide (pyInt u ≤ JOURNAL_PROMPTS.length) then
        JOURNAL_PROMPTS.getD (pyInt u - 1) "" :: selectPromptsAux rest (count + 1)
      else if pyTruthy u then
        u :: selectPromptsAux rest (count + 1)
      else
        selectPromptsAux rest count

/-- A regular file: its text content and last-modified time (Unix seconds). -/
structure File where
  content : String
  mtime : Int
deriving Repr, DecidableEq

/-- The filesystem under the repository root: a set of directories and a map
from paths to files, both keyed by root-relative path strings. -/
structure FileSystem where
  dirs : List String
  files : List (String × File)
deriving Repr, DecidableEq

/-- Look a path up in the filesystem (`os.path.exists` / read). -/
def fsLookup (fs : FileSystem) (p : String) : Option File :=
  (fs.files.find? (fun e => e.1 == p)).map (fun e => e.2)

/-- Write a file (Python `open(p, 'w')` overwrite semantics). -/
def fsWrite (fs : FileSystem) (p : String) (f : File) : FileSystem :=
  { fs with files := (p, f) :: fs.files.filter (fun e => !(e.1 == p)) }

/-- Logging levels used by the bot. -/
inductive LogLevel where
  | info
  | error
deriving Repr, DecidableEq

/-- One git operation performed through GitPython, recorded for tracing. -/
inductive GitCall where
  | init : GitCall
  | configSet : String → String → GitCall
  | add : String → GitCall
  | commit : String → GitCall
  | diffStaged : GitCall
  | push : String → String → GitCall
deriving Repr, DecidableEq

/-- The state of the git repository at `REPO_PATH`. -/
structure RepoState where
  hasGitDir : Bool
  userName : Option String
  userEmail : Option String
  staged : List String
  commits : List (String × List String)
  remotes : List String
deriving Repr, DecidableEq

/-- The full mutable world: repository, filesystem, log, git-call trace. -/
structure World where
  repo : RepoState
  fs : FileSystem
  log : List (LogLevel × String)
  calls : List GitCall
deriving Repr, DecidableEq

/-- Append an info-level log line. -/
def logInfo (w : World) (m : String) : World :=
  { w with log := w.log ++ [(LogLevel.info, m)] }

/-- Append an error-level log line. -/
def logError (w : World) (m : String) : World :=
  { w with log := w.log ++ [(LogLevel.error, m)] }

/-- `if not os.path.exists(d): os.makedirs(d); logger.info(msg)`. -/
def ensureDir (w : World) (d : String) (msg : String) : World :=
  if d ∈ w.fs.dirs then w
  else logInfo { w with fs := { w.fs with dirs := d :: w.fs.dirs } } msg

/-- Environment of one `create_journal_entry` run: the current date, the
timestamp of today's local midnight, the footer timestamp string, the
modification time the filesystem assigns to the written file, and the lines
available on standard input. -/
structure JEnv where
  today : Date
  midnightTs : Int
  nowStamp : String
  writeMtime : Int
  inputs : List String
deriving Repr, DecidableEq

/-- The three directory-creation blocks of `create_journal_entry`. -/
def ensureDirsStep (env : JEnv) (w : World) : World :=
  let w := ensureDir w "journals" "Created journals directory at journals"
  let w := ensureDir w (monthDirPath env.today)
    ("Created month directory at " ++ monthDirPath env.today)
  ensureDir w (dayDirPath env.today)
    ("Created day directory at " ++ dayDirPath env.today)

/-- The content built by the creation branch: date heading, one sub-heading
block per selected prompt, generation-timestamp footer. -/
def entryContent (env : JEnv) : String :=
  let prompts := selectPromptsAux env.inputs 1
  let content := "# Journal Entry: " ++ dateStr env.today ++ "\n\n"
  let content := prompts.foldl
    (fun acc p => acc ++ "## " ++ p ++ "\n\n_Write your thoughts here..._\n\n") content
  content ++ "\nCreated automatically by Journal Bot on " ++ env.nowStamp

/-- The creation branch of `create_journal_entry`: run the interactive loop,
build the content, write the file, log, and return the path. -/
def createNewEntry (env : JEnv) (w : World) : String × World :=
  let fp := entryFilePath env.today
  let w := { w with fs := fsWrite w.fs fp { content := entryContent env, mtime := env.writeMtime } }
  (fp, logInfo w ("Created journal entry: " ++ fp))

/-- Embedding of `create_journal_entry()`: ensure the directory hierarchy,
then either skip (file exists with mtime at or after today's midnight) or
create the entry interactively. -/
def create_journal_entry (env : JEnv) (w : World) : String × World :=
  let w := ensureDirsStep env w
  let fp := entryFilePath env.today
  match fsLookup w.fs fp with
  | some f =>
    if env.midnightTs ≤ f.mtime then
      (fp, logInfo w ("Journal entry for " ++ dateStr env.today ++
        " already exists. Skipping creation."))
    else createNewEntry env w
  | none => createNewEntry env w

/-- Startup configuration: `GITHUB_USERNAME` and `GITHUB_EMAIL` (the access
token is loaded but unused in the commit/push path). -/
structure BotConfig where
  username : String
  email : String
deriving Repr, DecidableEq

/-- Outcomes of the external git tool for one run, supplied as inputs: for
each GitPython call site, whether that call raises (and with what message),
and the output of `git diff --staged`. -/
structure Faults where
  initErr : Option String
  configErr : Option String
  readmeAddErr : Option String
  readmeCommitErr : Option String
  openRepoErr : Option String
  entryAddErr : Option String
  diffStagedOutput : String
  entryCommitErr : Option String
  pushErr : Option String
deriving Repr, DecidableEq

/-- Result of running a block of Python code: normal return with the updated
world, or an uncaught exception carrying its message and the mutations
performed before it was raised. -/
inductive PyRes (α : Type) where
  | ok : α → World → PyRes α
  | exn : String → World → PyRes α
deriving Repr, DecidableEq

/-- The world carried by a `PyRes`, whether it returned or raised. -/
def PyRes.world {α : Type} : PyRes α → World
  | PyRes.ok _ w => w
  | PyRes.exn _ w => w

/-- `git.Repo.init(REPO_PATH)`: a fresh repository with empty config, index,
history and remote list. -/
def gitInitOp (w : World) : World :=
  { w with
    repo := { hasGitDir := true, userName := none, userEmail := none,
              staged := [], commits := [], remotes := [] },
    calls := w.calls ++ [GitCall.init] }

/-- The `config_writer` block setting `user.name` and `user.email`. -/
def gitConfigOp (w : World) (cfg : BotConfig) : World :=
  { w with
    repo := { w.repo with userName := some cfg.username, userEmail := some cfg.email },
    calls := w.calls ++ [GitCall.configSet "user.name" cfg.username,
                         GitCall.configSet "user.email" cfg.email] }

/-- `repo.git.add(p)`: stage one path. -/
def gitAddOp (w : World) (p : String) : World :=
  { w with
    repo := { w.repo with staged := w.repo.staged ++ [p] },
    calls := w.calls ++ [GitCall.add p] }

/-- `repo.git.commit('-m', msg)`: record a commit of the staged paths and
clear the index. -/
def gitCommitOp (w : World) (msg : String) : World :=
  let r := w.repo
  { w with
    repo := { r with commits := r.commits ++ [(msg, r.staged)], staged := [] },
    calls := w.calls ++ [GitCall.commit msg] }

/-- The fixed README text written on first-run initialization. -/
def readmeText : String :=
  "# Daily Journal\n\nThis repository contains my daily journal entries, automatically committed by my journal bot."

/-- `git.Repo(REPO_PATH)` at the end of `setup_repo`: opens a handle, or
raises. -/
def openRepoStep (fl : Faults) (w : World) : PyRes Unit :=
  match fl.openRepoErr with
  | some e => PyRes.exn e w
  | none => PyRes.ok () w

/-- The body of `setup_repo` (inside its `try`): initialize the repository,
set the identity, and seed the README commit when `.git` is absent, then open
and return the handle. -/
def setup_repo_body (cfg : BotConfig) (fl : Faults) (w : World) : PyRes Unit :=
  if w.repo.hasGitDir then
    openRepoStep fl w
  else
    let w := logInfo w "Initializing git repository..."
    match fl.initErr with
    | some e => PyRes.exn e w
    | none =>
      let w := gitInitOp w
      match fl.configErr with
      | some e => PyRes.exn e w
      | none =>
        let w := gitConfigOp w cfg
        if (fsLookup w.fs "README.md").isNone then
          let w := { w with fs := fsWrite w.fs "README.md" { content := readmeText, mtime := 0 } }
          match fl.readmeAddErr with
          | some e => PyRes.exn e w
          | none =>
            let w := gitAddOp w "README.md"
            match fl.readmeCommitErr with
            | some e => PyRes.exn e w
            | none =>
              let w := gitCommitOp w "Initial commit: Add README"
              let w := logInfo w "Created README and made initial commit"
              openRepoStep fl w
        else
          openRepoStep fl w

/-- Embedding of `setup_repo()`: run the body and catch any exception,
logging it at error level and returning no handle (`None`). -/
def setup_repo (cfg : BotConfig) (fl : Faults) (w : World) : Option Unit × World :=
  match setup_repo_body cfg fl w with
  | PyRes.ok _ w1 => (some (), w1)
  | PyRes.exn e w1 => (none, logError w1 ("Error setting up repository: " ++ e))

/-- The body of `commit_to_github` (inside its `try`): set up the repository,
compose today's entry, stage it, bail out on an empty staged diff, commit,
and push when an `origin` remote exists. -/
def commit_body (cfg : BotConfig) (fl : Faults) (env : JEnv) (w : World) : PyRes Bool :=
  match setup_repo cfg fl w with
  | (none, w1) => PyRes.ok false w1
  | (some _, w1) =>
    let r := create_journal_entry env w1
    let relativePath := r.1
    let w2 := r.2
    match fl.entryAddErr with
    | some e => PyRes.exn e w2
    | none =>
      let w3 := gitAddOp w2 relativePath
      let w4 := { w3 with calls := w3.calls ++ [GitCall.diffStaged] }
      if fl.diffStagedOutput = "" then
        PyRes.ok false (logInfo w4 "No changes to commit")
      else
        match fl.entryCommitErr with
        | some e => PyRes.exn e w4
        | none =>
          let w5 := gitCommitOp w4 ("Add journal entry for " ++ dateStr env.today)
          if "origin" ∈ w5.repo.remotes then
            let w6 := logInfo w5 "Pushing changes to remote repository..."
            match fl.pushErr with
            | some e => PyRes.exn e w6
            | none =>
              let w7 := { w6 with calls := w6.calls ++ [GitCall.push "origin" "main"] }
              PyRes.ok true
                (logInfo w7 ("Successfully committed journal entry for " ++ dateStr env.today))
          else
            let w6 := logInfo w5 "No remote repository configured. Skipping push."
            let w6 := logInfo w6
              "To push manually, set up a remote repository and run: git push -u origin main"
            PyRes.ok true
              (logInfo w6 ("Successfully committed journal entry for " ++ dateStr env.today))

/-- Embedding of `commit_to_github()`: run the pipeline and catch any
exception, logging it at error level and returning `False`. -/
def commit_to_github (cfg : BotConfig) (fl : Faults) (env : JEnv) (w : World) : Bool × World :=
  match commit_body cfg fl env w with
  | PyRes.ok b w1 => (b, w1)
  | PyRes.exn e w1 => (false, logError w1 ("Error committing to GitHub: " ++ e))

/-! Concrete instances used to exercise the theorems on closed inputs. -/

/-- A configuration with a concrete identity. -/
def cfg0 : BotConfig :=
  { username := "alice", email := "alice@example.com" }

/-- A run of the external git tool in which no call raises and the staged
diff is empty. -/
def noFaults : Faults :=
  { initErr := none, configErr := none, readmeAddErr := none,
    readmeCommitErr := none, openRepoErr := none, entryAddErr := none,
    diffStagedOutput := "", entryCommitErr := none, pushErr := none }

/-- `noFaults` with a non-empty staged diff. -/
def diffFaults : Faults :=
  { noFaults with diffStagedOutput := "+new line" }

/-- A fresh world: no repository, empty filesystem, empty log and trace. -/
def emptyWorld : World :=
  { repo := { hasGitDir := false, userName := none, userEmail := none,
              staged := [], commits := [], remotes := [] },
    fs := { dirs := [], files := [] },
    log := [], calls := [] }

/-- A sample run environment: 2024-03-05, midnight at timestamp 100, the
entry written at timestamp 150, inputs selecting prompts 1 and 3. -/
def env935 : JEnv :=
  { today := { year := 2024, month := 3, day := 5 },
    midnightTs := 100, nowStamp := "2024-03-05 21:17:45",
    writeMtime := 150, inputs := ["1", "3", "done"] }

/-- `env935` with the user entering the sentinel immediately. -/
def envDone : JEnv :=
  { env935 with inputs := ["done"] }

/-- A world with no `.git` directory but a pre-existing `README.md`. -/
def c5World : World :=
  { emptyWorld with fs := { dirs := [], files := [("README.md", { content := "old", mtime := 0 })] } }

/-- A world whose repository already exists. -/
def gitWorld : World :=
  { emptyWorld with repo := { emptyWorld.repo with hasGitDir := true } }

/-- A run in which opening the repository handle raises. -/
def openFailFaults : Faults :=
  { noFaults with openRepoErr := some "boom" }

/-- A run in which staging the entry raises. -/
def addFailFaults : Faults :=
  { noFaults with entryAddErr := some "disk full" }

/-! Helper lemmas about the world-manipulation primitives. -/

lemma logInfo_fs (w : World) (m : String) : (logInfo w m).fs = w.fs := rfl

lemma logInfo_repo (w : World) (m : String) : (logInfo w m).repo = w.repo := rfl

lemma logInfo_calls (w : World) (m : String) : (logInfo w m).calls = w.calls := rfl

lemma logError_calls (w : World) (m : String) : (logError w m).calls = w.calls := rfl

lemma logError_repo (w : World) (m : String) : (logError w m).repo = w.repo := rfl

lemma ensureDir_files (w : World) (d m : String) :
    (ensureDir w d m).fs.files = w.fs.files := by
  unfold ensureDir
  split <;> rfl

lemma ensureDir_repo (w : World) (d m : String) :
    (ensureDir w d m).repo = w.repo := by
  unfold ensureDir
  split <;> rfl

lemma ensureDir_calls (w : World) (d m : String) :
    (ensureDir w d m).calls = w.calls := by
  unfold ensureDir
  split <;> rfl

lemma ensureDirsStep_files (env : JEnv) (w : World) :
    (ensureDirsStep env w).fs.files = w.fs.files := by
  unfold ensureDirsStep
  simp only [ensureDir_files]

lemma ensureDirsStep_repo (env : JEnv) (w : World) :
    (ensureDirsStep env w).repo = w.repo := by
  unfold ensureDirsStep
  simp only [ensureDir_repo]

lemma ensureDirsStep_calls (env : JEnv) (w : World) :
    (ensureDirsStep env w).calls = w.calls := by
  unfold ensureDirsStep
  simp only [ensureDir_calls]

lemma fsLookup_fsWrite_self (fs : FileSystem) (p : String) (f : File) :
    fsLookup (fsWrite fs p f) p = some f := by
  simp [fsLookup, fsWrite, List.find?]

lemma fsLookup_ensureDirsStep (env : JEnv) (w : World) (p : String) :
    fsLookup (ensureDirsStep env w).fs p = fsLookup w.fs p := by
  unfold fsLookup
  rw [ensureDirsStep_files]

/-- Branch-level characterization of `create_journal_entry`. -/
lemma create_journal_entry_eq (env : JEnv) (w : World) :
    create_journal_entry env w =
      match fsLookup w.fs (entryFilePath env.today) with
      | some f =>
        if env.midnightTs ≤ f.mtime then
          (entryFilePath env.today, logInfo (ensureDirsStep env w)
            ("Journal entry for " ++ dateStr env.today ++ " already exists. Skipping creation."))
        else createNewEntry env (ensureDirsStep env w)
      | none => createNewEntry env (ensureDirsStep env w) := by
  simp only [create_journal_entry]
  rw [fsLookup_ensureDirsStep]

lemma createNewEntry_fst (env : JEnv) (w : World) :
    (createNewEntry env w).1 = entryFilePath env.today := rfl

lemma create_journal_entry_fst (env : JEnv) (w : World) :
    (create_journal_entry env w).1 = entryFilePath env.today := by
  rw [create_journal_entry_eq]
  cases fsLookup w.fs (entryFilePath env.today) with
  | none => rfl
  | some f =>
    by_cases h : env.midnightTs ≤ f.mtime
    · simp [h]
    · simp [h, createNewEntry_fst]

lemma create_journal_entry_repo (env : JEnv) (w : World) :
    (create_journal_entry env w).2.repo = w.repo := by
  rw [create_journal_entry_eq]
  cases fsLookup w.fs (entryFilePath env.today) with
  | none => simp [createNewEntry, logInfo_repo, ensureDirsStep_repo]
  | some f =>
    by_cases h : env.midnightTs ≤ f.mtime
    · simp [h, logInfo_repo, ensureDirsStep_repo]
    · simp [h, createNewEntry, logInfo_repo, ensureDirsStep_repo]

lemma create_journal_entry_calls (env : JEnv) (w : World) :
    (create_journal_entry env w).2.calls = w.calls := by
  rw [create_journal_entry_eq]
  cases fsLookup w.fs (entryFilePath env.today) with
  | none => simp [createNewEntry, logInfo_calls, ensureDirsStep_calls]
  | some f =>
    by_cases h : env.midnightTs ≤ f.mtime
    · simp [h, logInfo_calls, ensureDirsStep_calls]
    · simp [h, createNewEntry, logInfo_calls, ensureDirsStep_calls]

/-- In the skip branch, the file map is untouched. -/
lemma create_skip_files (env : JEnv) (w : World) (f : File)
    (hl : fsLookup w.fs (entryFilePath env.today) = some f)
    (hm : env.midnightTs ≤ f.mtime) :
    (create_journal_entry env w).2.fs.files = w.fs.files := by
  rw [create_journal_entry_eq, hl]
  simp [hm, logInfo_fs, ensureDirsStep_files]

/-- After any run whose write timestamp is at or after midnight, the entry
file exists and is fresh. -/
lemma create_post_fresh (env : JEnv) (w : World)
    (hw : env.midnightTs ≤ env.writeMtime) :
    ∃ f, fsLookup (create_journal_entry env w).2.fs (entryFilePath env.today) = some f ∧
      env.midnightTs ≤ f.mtime := by
  rw [create_journal_entry_eq]
  cases hl : fsLookup w.fs (entryFilePath env.today) with
  | none =>
    refine ⟨{ content := entryContent env, mtime := env.writeMtime }, ?_, hw⟩
    simp [createNewEntry, logInfo_fs, fsLookup_fsWrite_self]
  | some f =>
    by_cases hm : env.midnightTs ≤ f.mtime
    · refine ⟨f, ?_, hm⟩
      simp only [hm, if_true]
      show fsLookup (logInfo (ensureDirsStep env w) _).fs _ = some f
      rw [logInfo_fs, fsLookup_ensureDirsStep, hl]
    · refine ⟨{ content := entryContent env, mtime := env.writeMtime }, ?_, hw⟩
      simp only [hm, if_false]
      simp [createNewEntry, logInfo_fs, fsLookup_fsWrite_self]

/-! String lemmas about the Python helpers. -/

/-- Lowering leaves a decimal digit unchanged. -/
lemma pyLowerChar_of_digit (c : Char) (h : pyIsDigitChar c = true) :
    pyLowerChar c = c := by
  simp only [pyIsDigitChar, Bool.and_eq_true, decide_eq_true_eq] at h
  unfold pyLowerChar
  rw [if_neg]
  omega

/-- A digit string never lowers to the sentinel `done`. -/
lemma pyIsDigit_lower_ne_done (u : String) (h : pyIsDigit u = true) :
    ¬ pyLower u = "done" := by
  intro heq
  have hdata : u.data.map pyLowerChar = ['d', 'o', 'n', 'e'] := congrArg String.data heq
  have hall : u.data.all pyIsDigitChar = true := by
    simp only [pyIsDigit, Bool.and_eq_true] at h
    exact h.2
  cases hu : u.data with
  | nil => rw [hu] at hdata; simp at hdata
  | cons c t =>
    rw [hu] at hdata
    simp only [List.map_cons, List.cons.injEq] at hdata
    rw [hu] at hall
    simp only [List.all_cons, Bool.and_eq_true] at hall
    have hlc : pyLowerChar c = c := pyLowerChar_of_digit c hall.1
    rw [hlc] at hdata
    have hd : pyIsDigitChar 'd' = true := by rw [← hdata.1]; exact hall.1
    simp [pyIsDigitChar] at hd

/-- A digit string is truthy (non-empty). -/
lemma pyIsDigit_truthy (u : String) (h : pyIsDigit u = true) :
    pyTruthy u = true := by
  simp only [pyIsDigit, Bool.and_eq_true] at h
  exact h.1

/-! Claim theorems about the Entry Composer. -/

/-- C2.  For every date, in both the skip branch and the creation branch,
the path returned by `create_journal_entry` is the deterministic shape
`journals/<lowercase-month-name>-<4-digit-year>/<zero-padded-day>/<YYYY-MM-DD>.md`
(repository-root relative); it depends only on `env.today`. -/
theorem C2_entry_path_shape (env : JEnv) (w : World) :
    (create_journal_entry env w).1 =
      "journals" ++ "/" ++ (pyLower (monthNameB env.today.month) ++ "-" ++ zpad 4 env.today.year)
        ++ "/" ++ zpad 2 env.today.day ++ "/"
        ++ (zpad 4 env.today.year ++ "-" ++ zpad 2 env.today.month ++ "-" ++ zpad 2 env.today.day)
        ++ ".md" := by
  rw [create_journal_entry_fst]
  rfl

/-- C1.  Entry creation is idempotent per calendar day.  First conjunct: if
the entry file already exists with modification time at or after today's
midnight, the existing path is returned and no file is written.  Second
conjunct: two runs on the same calendar date (the first writing at or after
midnight) leave the file map unchanged after the second run, which returns
the same path. -/
theorem C1_entry_creation_idempotent :
    (∀ (env : JEnv) (w : World) (f : File),
        fsLookup w.fs (entryFilePath env.today) = some f →
        env.midnightTs ≤ f.mtime →
        (create_journal_entry env w).1 = entryFilePath env.today ∧
        (create_journal_entry env w).2.fs.files = w.fs.files) ∧
    (∀ (env1 env2 : JEnv) (w : World),
        env1.midnightTs ≤ env1.writeMtime →
        env2.today = env1.today →
        env2.midnightTs = env1.midnightTs →
        (create_journal_entry env2 (create_journal_entry env1 w).2).1 =
          (create_journal_entry env1 w).1 ∧
        (create_journal_entry env2 (create_journal_entry env1 w).2).2.fs.files =
          (create_journal_entry env1 w).2.fs.files) := by
  constructor
  · intro env w f hl hm
    exact ⟨create_journal_entry_fst env w, create_skip_files env w f hl hm⟩
  · intro env1 env2 w hw ht hmid
    obtain ⟨f, hf, hfm⟩ := create_post_fresh env1 w hw
    have hl2 : fsLookup (create_journal_entry env1 w).2.fs (entryFilePath env2.today) = some f := by
      rw [ht]; exact hf
    have hm2 : env2.midnightTs ≤ f.mtime := by rw [hmid]; exact hfm
    refine ⟨?_, create_skip_files env2 _ f hl2 hm2⟩
    rw [create_journal_entry_fst, create_journal_entry_fst, ht]

/-- C1 witness: a concrete first run (fresh world, write at timestamp 150,
midnight at 100) followed by a second run on the same date. -/
theorem C1_entry_creation_idempotent_witness :
    (create_journal_entry envDone (create_journal_entry env935 emptyWorld).2).1 =
      (create_journal_entry env935 emptyWorld).1 ∧
    (create_journal_entry envDone (create_journal_entry env935 emptyWorld).2).2.fs.files =
      (create_journal_entry env935 emptyWorld).2.fs.files :=
  C1_entry_creation_idempotent.2 env935 envDone emptyWorld (by decide) rfl rfl

/-- C7.  In the selection loop, a digit input selects a menu entry exactly
when its value is between 1 and the length of `JOURNAL_PROMPTS` (10); an
out-of-range digit input falls through to the free-text branch and is
appended verbatim (stripped). -/
theorem C7_numeric_range_check :
    (∀ (raw : String) (rest : List String) (count : Nat),
        count ≤ 3 →
        pyIsDigit (pyStrip raw) = true →
        1 ≤ pyInt (pyStrip raw) →
        pyInt (pyStrip raw) ≤ 10 →
        selectPromptsAux (raw :: rest) count =
          JOURNAL_PROMPTS.getD (pyInt (pyStrip raw) - 1) "" :: selectPromptsAux rest (count + 1)) ∧
    (∀ (raw : String) (rest : List String) (count : Nat),
        count ≤ 3 →
        pyIsDigit (pyStrip raw) = true →
        (pyInt (pyStrip raw) = 0 ∨ 10 < pyInt (pyStrip raw)) →
        selectPromptsAux (raw :: rest) count =
          pyStrip raw :: selectPromptsAux rest (count + 1)) := by
  have hlen : JOURNAL_PROMPTS.length = 10 := rfl
  constructor
  · intro raw rest count hc hdig h1 h2
    have hne := pyIsDigit_lower_ne_done (pyStrip raw) hdig
    have hcond : (pyIsDigit (pyStrip raw) && decide (1 ≤ pyInt (pyStrip raw))
        && decide (pyInt (pyStrip raw) ≤ JOURNAL_PROMPTS.length)) = true := by
      rw [hlen]
      simp [hdig, h1, h2]
    simp [selectPromptsAux, Nat.not_lt.mpr hc, hne, hcond]
  · intro raw rest count hc hdig h3
    have hne := pyIsDigit_lower_ne_done (pyStrip raw) hdig
    have htr := pyIsDigit_truthy (pyStrip raw) hdig
    have hcond : (pyIsDigit (pyStrip raw) && decide (1 ≤ pyInt (pyStrip raw))
        && decide (pyInt (pyStrip raw) ≤ JOURNAL_PROMPTS.length)) = false := by
      rw [hlen]
      rcases h3 with h3 | h3
      · simp [h3]
      · have hnle : ¬ pyInt (pyStrip raw) ≤ 10 := by omega
        simp [hnle]
    simp [selectPromptsAux, Nat.not_lt.mpr hc, hne, hcond, htr]

/-- C7 witness: input `2` selects prompt 2; out-of-range inputs `0` and `11`
are kept verbatim as free text. -/
theorem C7_numeric_range_check_witness :
    selectPromptsAux ["2", "done"] 1 =
      JOURNAL_PROMPTS.getD (pyInt (pyStrip "2") - 1) "" :: selectPromptsAux ["done"] 2 ∧
    selectPromptsAux ["0", "done"] 1 = pyStrip "0" :: selectPromptsAux ["done"] 2 ∧
    selectPromptsAux ["11", "done"] 1 = pyStrip "11" :: selectPromptsAux ["done"] 2 :=
  ⟨C7_numeric_range_check.1 "2" ["done"] 1 (by decide) (by decide) (by decide) (by decide),
   C7_numeric_range_check.2 "0" ["done"] 1 (by decide) (by decide) (Or.inl (by decide)),
   C7_numeric_range_check.2 "11" ["done"] 1 (by decide) (by decide) (Or.inr (by decide))⟩

/-- C10.  An input line that strips to the empty string is silently ignored:
the loop proceeds on the remaining input with the same count, appending
nothing, so the empty line consumes no selection slot. -/
theorem C10_empty_input_ignored (raw : String) (rest : List String) (count : Nat)
    (h : pyStrip raw = "") :
    selectPromptsAux (raw :: rest) count = selectPromptsAux rest count := by
  have hnd : ¬ pyLower (pyStrip raw) = "done" := by rw [h]; decide
  have hdig : pyIsDigit (pyStrip raw) = false := by rw [h]; decide
  have htr : pyTruthy (pyStrip raw) = false := by rw [h]; decide
  by_cases hc : 3 < count
  · cases rest with
    | nil => simp [selectPromptsAux, hc]
    | cons a t => simp [selectPromptsAux, hc]
  · simp [selectPromptsAux, hc, hnd, hdig, htr]

/-- C10 witness: a whitespace-only line before a selection does not consume
the slot. -/
theorem C10_empty_input_ignored_witness :
    selectPromptsAux ["   ", "1", "done"] 1 = selectPromptsAux ["1", "done"] 1 :=
  C10_empty_input_ignored "   " ["1", "done"] 1 (by decide)

/-- C8.  When the user enters the sentinel immediately and no entry file
exists yet, the written file is exactly the date heading followed by the
generation-timestamp footer, with no prompt sub-headings. -/
theorem C8_zero_prompts_file (env : JEnv) (w : World) (rest : List String)
    (hin : env.inputs = "done" :: rest)
    (hnew : fsLookup w.fs (entryFilePath env.today) = none) :
    fsLookup (create_journal_entry env w).2.fs (entryFilePath env.today) =
      some { content := "# Journal Entry: " ++ dateStr env.today ++ "\n\n"
               ++ "\nCreated automatically by Journal Bot on " ++ env.nowStamp,
             mtime := env.writeMtime } := by
  have hsel : selectPromptsAux env.inputs 1 = [] := by
    rw [hin]
    have hnd : pyLower (pyStrip "done") = "done" := by decide
    simp [selectPromptsAux, hnd]
  have hcontent : entryContent env =
      "# Journal Entry: " ++ dateStr env.today ++ "\n\n"
        ++ "\nCreated automatically by Journal Bot on " ++ env.nowStamp := by
    simp [entryContent, hsel]
  rw [create_journal_entry_eq, hnew]
  rw [← hcontent]
  simp [createNewEntry, logInfo_fs, fsLookup_fsWrite_self]

/-- C8 witness: the concrete 2024-03-05 environment with input `done` on a
fresh world. -/
theorem C8_zero_prompts_file_witness :
    fsLookup (create_journal_entry envDone emptyWorld).2.fs (entryFilePath envDone.today) =
      some { content := "# Journal Entry: " ++ dateStr envDone.today ++ "\n\n"
               ++ "\nCreated automatically by Journal Bot on " ++ envDone.nowStamp,
             mtime := envDone.writeMtime } :=
  C8_zero_prompts_file envDone emptyWorld [] rfl rfl

/-- C9.  On 2024-03-05 with inputs `1`, `3`, `done` on a fresh world, the
entry path is `journals/march-2024/05/2024-03-05.md` and the content has
exactly the two selected sub-headings in selection order. -/
theorem C9_example_run :
    (create_journal_entry env935 emptyWorld).1 = "journals/march-2024/05/2024-03-05.md" ∧
    fsLookup (create_journal_entry env935 emptyWorld).2.fs
        "journals/march-2024/05/2024-03-05.md" =
      some { content := "# Journal Entry: 2024-03-05\n\n## What went well today?\n\n_Write your thoughts here..._\n\n## What am I grateful for today?\n\n_Write your thoughts here..._\n\n\nCreated automatically by Journal Bot on 2024-03-05 21:17:45",
             mtime := 150 } :=
  ⟨rfl, rfl⟩

/-! Lemmas about `setup_repo`'s effect on the call trace and remotes. -/

/-- `(l ++ [a]).getLast? = some a`. -/
lemma getLast?_append_one {α : Type} (l : List α) (a : α) :
    (l ++ [a]).getLast? = some a := by
  rw [List.getLast?_append_cons]
  rfl

/-- The repository state after `setup_repo` is that of its body, whether or
not an exception was caught. -/
lemma setup_repo_snd_repo (cfg : BotConfig) (fl : Faults) (w : World) :
    (setup_repo cfg fl w).2.repo = (setup_repo_body cfg fl w).world.repo := by
  unfold setup_repo
  cases setup_repo_body cfg fl w <;> simp [PyRes.world, logError_repo]

/-- The call trace after `setup_repo` is that of its body. -/
lemma setup_repo_snd_calls (cfg : BotConfig) (fl : Faults) (w : World) :
    (setup_repo cfg fl w).2.calls = (setup_repo_body cfg fl w).world.calls := by
  unfold setup_repo
  cases setup_repo_body cfg fl w <;> simp [PyRes.world, logError_calls]

/-- Any push call in the trace after `setup_repo`'s body was already there
before: repository setup never pushes. -/
lemma setup_repo_body_push_mem (cfg : BotConfig) (fl : Faults) (w : World)
    (r b : String) (h : GitCall.push r b ∈ (setup_repo_body cfg fl w).world.calls) :
    GitCall.push r b ∈ w.calls := by
  simp only [setup_repo_body, openRepoStep, gitInitOp, gitConfigOp,
    gitAddOp, gitCommitOp, logInfo] at h
  repeat' split at h
  all_goals simp_all [PyRes.world, List.mem_append]

/-- Any commit call in the trace after `setup_repo`'s body was already there
before, or is the initial README commit. -/
lemma setup_repo_body_commit_mem (cfg : BotConfig) (fl : Faults) (w : World)
    (m : String) (h : GitCall.commit m ∈ (setup_repo_body cfg fl w).world.calls) :
    GitCall.commit m ∈ w.calls ∨ m = "Initial commit: Add README" := by
  simp only [setup_repo_body, openRepoStep, gitInitOp, gitConfigOp,
    gitAddOp, gitCommitOp, logInfo] at h
  repeat' split at h
  all_goals simp_all [PyRes.world, List.mem_append]

/-- Any remote configured after `setup_repo`'s body was configured before it
ran (initialization produces an empty remote list). -/
lemma setup_repo_body_remotes_mem (cfg : BotConfig) (fl : Faults) (w : World)
    (r : String) (h : r ∈ (setup_repo_body cfg fl w).world.repo.remotes) :
    r ∈ w.repo.remotes := by
  simp only [setup_repo_body, openRepoStep, gitInitOp, gitConfigOp,
    gitAddOp, gitCommitOp, logInfo] at h
  repeat' split at h
  all_goals simp_all [PyRes.world]

/-- Characterization of the pipeline body when setup succeeds, staging does
not raise, and the staged diff is empty. -/
lemma commit_body_empty_diff (cfg : BotConfig) (fl : Faults) (env : JEnv) (w w1 : World)
    (hsr : setup_repo cfg fl w = (some (), w1))
    (hadd : fl.entryAddErr = none)
    (hdiff : fl.diffStagedOutput = "") :
    commit_body cfg fl env w =
      PyRes.ok false (logInfo
        { gitAddOp (create_journal_entry env w1).2 (create_journal_entry env w1).1 with
            calls := (gitAddOp (create_journal_entry env w1).2 (create_journal_entry env w1).1).calls
              ++ [GitCall.diffStaged] }
        "No changes to commit") := by
  unfold commit_body
  simp only [hsr, hadd, hdiff, if_true]

/-- C3.  When setup succeeds, the entry is staged without error, and the
staged diff is empty, the pipeline returns False, invokes no commit of its
own (the only possible commit call in the trace is setup's initial README
commit), and its final log line is the info-level empty-work message. -/
theorem C3_empty_diff_returns_false (cfg : BotConfig) (fl : Faults) (env : JEnv) (w : World)
    (hsetup : (setup_repo cfg fl w).1 = some ())
    (hadd : fl.entryAddErr = none)
    (hdiff : fl.diffStagedOutput = "")
    (hcalls : w.calls = []) :
    (commit_to_github cfg fl env w).1 = false ∧
    (∀ m, GitCall.commit m ∈ (commit_to_github cfg fl env w).2.calls →
      m = "Initial commit: Add README") ∧
    (commit_to_github cfg fl env w).2.log.getLast? =
      some (LogLevel.info, "No changes to commit") := by
  rcases hsr : setup_repo cfg fl w with ⟨h0, w1⟩
  rw [hsr] at hsetup
  have h0eq : h0 = some () := hsetup
  rw [h0eq] at hsr
  have hb := commit_body_empty_diff cfg fl env w w1 hsr hadd hdiff
  have hw1calls : w1.calls = (setup_repo_body cfg fl w).world.calls := by
    rw [← setup_repo_snd_calls, hsr]
  refine ⟨?_, ?_, ?_⟩
  · simp only [commit_to_github, hb]
  · intro m hm
    simp only [commit_to_github, hb, logInfo, gitAddOp, create_journal_entry_calls,
      List.mem_append, List.mem_singleton] at hm
    rcases hm with (hm | hm) | hm
    · rw [hw1calls] at hm
      rcases setup_repo_body_commit_mem cfg fl w m hm with h | h
      · rw [hcalls] at h
        simp at h
      · exact h
    · simp at hm
    · simp at hm
  · simp only [commit_to_github, hb, logInfo]
    exact getLast?_append_one _ _

/-- C3 witness: a fresh world, fault-free git, empty staged diff. -/
theorem C3_empty_diff_returns_false_witness :
    (commit_to_github cfg0 noFaults envDone emptyWorld).1 = false ∧
    (∀ m, GitCall.commit m ∈ (commit_to_github cfg0 noFaults envDone emptyWorld).2.calls →
      m = "Initial commit: Add README") ∧
    (commit_to_github cfg0 noFaults envDone emptyWorld).2.log.getLast? =
      some (LogLevel.info, "No changes to commit") :=
  C3_empty_diff_returns_false cfg0 noFaults envDone emptyWorld rfl rfl rfl rfl

/-- Characterization of the pipeline body when setup succeeds, staging and
committing do not raise, the staged diff is non-empty, and no `origin`
remote is configured after setup. -/
lemma commit_body_no_origin (cfg : BotConfig) (fl : Faults) (env : JEnv) (w w1 : World)
    (hsr : setup_repo cfg fl w = (some (), w1))
    (hadd : fl.entryAddErr = none)
    (hdiff : ¬ fl.diffStagedOutput = "")
    (hcommit : fl.entryCommitErr = none)
    (horigin : "origin" ∉ w1.repo.remotes) :
    commit_body cfg fl env w =
      PyRes.ok true (logInfo (logInfo (logInfo
        (gitCommitOp
          { gitAddOp (create_journal_entry env w1).2 (create_journal_entry env w1).1 with
              calls := (gitAddOp (create_journal_entry env w1).2 (create_journal_entry env w1).1).calls
                ++ [GitCall.diffStaged] }
          ("Add journal entry for " ++ dateStr env.today))
        "No remote repository configured. Skipping push.")
        "To push manually, set up a remote repository and run: git push -u origin main")
        ("Successfully committed journal entry for " ++ dateStr env.today)) := by
  have hno : "origin" ∉
      (gitCommitOp
        { gitAddOp (create_journal_entry env w1).2 (create_journal_entry env w1).1 with
            calls := (gitAddOp (create_journal_entry env w1).2 (create_journal_entry env w1).1).calls
              ++ [GitCall.diffStaged] }
        ("Add journal entry for " ++ dateStr env.today)).repo.remotes := by
    simpa [gitCommitOp, gitAddOp, create_journal_entry_repo] using horigin
  unfold commit_body
  simp only [hsr, hadd, if_neg hdiff, hcommit, if_neg hno]

/-- C4.  When the repository has no `origin` remote and the commit succeeds,
the pipeline skips the push (no push call appears in the trace) and still
returns True. -/
theorem C4_no_origin_still_success (cfg : BotConfig) (fl : Faults) (env : JEnv) (w : World)
    (hsetup : (setup_repo cfg fl w).1 = some ())
    (hadd : fl.entryAddErr = none)
    (hdiff : ¬ fl.diffStagedOutput = "")
    (hcommit : fl.entryCommitErr = none)
    (horigin : "origin" ∉ w.repo.remotes)
    (hcalls : w.calls = []) :
    (commit_to_github cfg fl env w).1 = true ∧
    (∀ r b, GitCall.push r b ∉ (commit_to_github cfg fl env w).2.calls) := by
  rcases hsr : setup_repo cfg fl w with ⟨h0, w1⟩
  rw [hsr] at hsetup
  have h0eq : h0 = some () := hsetup
  rw [h0eq] at hsr
  have hw1repo : w1.repo = (setup_repo_body cfg fl w).world.repo := by
    rw [← setup_repo_snd_repo, hsr]
  have hw1calls : w1.calls = (setup_repo_body cfg fl w).world.calls := by
    rw [← setup_repo_snd_calls, hsr]
  have horigin1 : "origin" ∉ w1.repo.remotes := by
    intro hmem
    rw [hw1repo] at hmem
    exact horigin (setup_repo_body_remotes_mem cfg fl w "origin" hmem)
  have hb := commit_body_no_origin cfg fl env w w1 hsr hadd hdiff hcommit horigin1
  refine ⟨?_, ?_⟩
  · simp only [commit_to_github, hb]
  · intro r b hm
    simp only [commit_to_github, hb, logInfo, gitCommitOp, gitAddOp,
      create_journal_entry_calls, List.mem_append, List.mem_singleton] at hm
    rcases hm with ((hm | hm) | hm) | hm
    · rw [hw1calls] at hm
      have := setup_repo_body_push_mem cfg fl w r b hm
      rw [hcalls] at this
      simp at this
    · simp at hm
    · simp at hm
    · simp at hm

/-- C4 witness: fresh world, non-empty diff, no remote configured. -/
theorem C4_no_origin_still_success_witness :
    (commit_to_github cfg0 diffFaults envDone emptyWorld).1 = true ∧
    (∀ r b, GitCall.push r b ∉ (commit_to_github cfg0 diffFaults envDone emptyWorld).2.calls) :=
  C4_no_origin_still_success cfg0 diffFaults envDone emptyWorld rfl rfl
    (by decide) rfl (by decide) rfl

/-- C5 counterexample: a world with no `.git` directory but a pre-existing
`README.md`.  `setup_repo` succeeds, yet it creates no commit at all and
leaves the existing README untouched, contradicting the claim that whenever
no version-control metadata exists it writes the README and creates an
initial commit. -/
theorem C5_counterexample_readme_exists :
    c5World.repo.hasGitDir = false ∧
    (setup_repo cfg0 noFaults c5World).1 = some () ∧
    (setup_repo cfg0 noFaults c5World).2.repo.commits = [] ∧
    fsLookup (setup_repo cfg0 noFaults c5World).2.fs "README.md" =
      some { content := "old", mtime := 0 } :=
  ⟨rfl, rfl, rfl, rfl⟩

/-- C5 amended.  Whenever no `.git` directory exists AND no `README.md`
exists, `setup_repo` initializes a repository, sets the user name and email
from configuration, writes the fixed README, and creates an initial commit
containing exactly that README. -/
theorem C5_amended_first_run_init (cfg : BotConfig) (fl : Faults) (w : World)
    (hgit : w.repo.hasGitDir = false)
    (hreadme : fsLookup w.fs "README.md" = none)
    (hinit : fl.initErr = none)
    (hconf : fl.configErr = none)
    (hradd : fl.readmeAddErr = none)
    (hrcommit : fl.readmeCommitErr = none)
    (hopen : fl.openRepoErr = none) :
    (setup_repo cfg fl w).1 = some () ∧
    (setup_repo cfg fl w).2.repo.hasGitDir = true ∧
    (setup_repo cfg fl w).2.repo.userName = some cfg.username ∧
    (setup_repo cfg fl w).2.repo.userEmail = some cfg.email ∧
    fsLookup (setup_repo cfg fl w).2.fs "README.md" =
      some { content := readmeText, mtime := 0 } ∧
    (setup_repo cfg fl w).2.repo.commits = [("Initial commit: Add README", ["README.md"])] := by
  simp [setup_repo, setup_repo_body, openRepoStep, hgit, hinit, hconf, hradd, hrcommit,
    hopen, hreadme, gitInitOp, gitConfigOp, gitAddOp, gitCommitOp, logInfo,
    fsLookup_fsWrite_self]

/-- C5 witness: a completely fresh world with a fault-free git tool. -/
theorem C5_amended_first_run_init_witness :
    (setup_repo cfg0 noFaults emptyWorld).1 = some () ∧
    (setup_repo cfg0 noFaults emptyWorld).2.repo.hasGitDir = true ∧
    (setup_repo cfg0 noFaults emptyWorld).2.repo.userName = some cfg0.username ∧
    (setup_repo cfg0 noFaults emptyWorld).2.repo.userEmail = some cfg0.email ∧
    fsLookup (setup_repo cfg0 noFaults emptyWorld).2.fs "README.md" =
      some { content := readmeText, mtime := 0 } ∧
    (setup_repo cfg0 noFaults emptyWorld).2.repo.commits =
      [("Initial commit: Add README", ["README.md"])] :=
  C5_amended_first_run_init cfg0 noFaults emptyWorld rfl rfl rfl rfl rfl rfl rfl

/-- C6.  Every exception raised inside the body of repository setup yields
`(none, log + error line)` from `setup_repo`, and every exception raised
inside the body of the commit pipeline yields `(false, log + error line)`
from `commit_to_github`; both functions are total, so no exception escapes
to the caller, and the error log line carries the exception's message. -/
theorem C6_exceptions_logged_not_reraised :
    (∀ (cfg : BotConfig) (fl : Faults) (w : World) (msg : String) (w1 : World),
        setup_repo_body cfg fl w = PyRes.exn msg w1 →
        setup_repo cfg fl w = (none, logError w1 ("Error setting up repository: " ++ msg))) ∧
    (∀ (cfg : BotConfig) (fl : Faults) (env : JEnv) (w : World) (msg : String) (w1 : World),
        commit_body cfg fl env w = PyRes.exn msg w1 →
        commit_to_github cfg fl env w =
          (false, logError w1 ("Error committing to GitHub: " ++ msg))) := by
  constructor
  · intro cfg fl w msg w1 h
    unfold setup_repo
    rw [h]
  · intro cfg fl env w msg w1 h
    unfold commit_to_github
    rw [h]

/-- C6 witness: opening the repository handle raises inside setup; staging
the entry raises inside the pipeline. -/
theorem C6_exceptions_logged_not_reraised_witness :
    setup_repo cfg0 openFailFaults gitWorld =
      (none, logError gitWorld ("Error setting up repository: " ++ "boom")) ∧
    commit_to_github cfg0 addFailFaults envDone gitWorld =
      (false, logError (create_journal_entry envDone gitWorld).2
        ("Error committing to GitHub: " ++ "disk full")) :=
  ⟨C6_exceptions_logged_not_reraised.1 cfg0 openFailFaults gitWorld "boom" gitWorld rfl,
   C6_exceptions_logged_not_reraised.2 cfg0 addFailFaults envDone gitWorld "disk full"
     (create_journal_entry envDone gitWorld).2 rfl⟩

end JournalBot
